import Mathlib

/-!
Shallow embedding of the CRUD-Comment-API backend (Flask + SQLAlchemy task /
comment service) and proofs about its service layer, validation schemas and
route handlers.

The relational store is modelled as explicit state (`Store`): the `tasks` and
`comments` tables as lists of rows, the auto-increment primary keys as
`nextTaskId` / `nextCommentId`, and the wall clock used for `created_at` /
`updated_at` timestamps as a logical counter `clock`.  A `SQLAlchemyError`
raised by the persistence layer is modelled by a `dbFail` flag injected at the
point where the code touches the database inside its `try` block (the commit
for mutating operations, the query for reads); `Except SvcErr` models the
exception flow (`ValueError` for not-found, `SQLAlchemyError` for storage).
-/

namespace CrudApi

/-- Whitespace characters removed by Python `str.strip()` (ASCII range). -/
def isPyWs (c : Char) : Bool :=
  c = ' ' || c = '\t' || c = '\n' || c = '\r' || c = '\x0b' || c = '\x0c'

/-- Python `str.strip()`: drop leading and trailing whitespace. -/
def pyStrip (s : String) : String :=
  ⟨((s.data.dropWhile isPyWs).reverse.dropWhile isPyWs).reverse⟩

/-- Row of the `tasks` table (`task_model.py`). -/
structure Task where
  id : Nat
  title : String
  description : Option String
  created_at : Nat
  updated_at : Nat
  deriving Repr, DecidableEq

/-- Row of the `comments` table (`comment_model.py`). -/
structure Comment where
  id : Nat
  task_id : Nat
  content : String
  author : String
  created_at : Nat
  updated_at : Nat
  deriving Repr, DecidableEq

/-- The relational store backing the application. -/
structure Store where
  tasks : List Task
  comments : List Comment
  nextTaskId : Nat
  nextCommentId : Nat
  clock : Nat
  deriving Repr, DecidableEq

def emptyStore : Store := ⟨[], [], 1, 1, 0⟩

/-- Auto-increment discipline: every stored row's id is below the next id. -/
def StoreWF (st : Store) : Prop :=
  (∀ t ∈ st.tasks, t.id < st.nextTaskId) ∧ (∀ c ∈ st.comments, c.id < st.nextCommentId)

/-- Exceptions crossing the service boundary: `ValueError` (not found) and
`SQLAlchemyError` (storage failure). -/
inductive SvcErr
  | notFound
  | storage
  deriving Repr, DecidableEq

/-- `ORDER BY created_at DESC` comparison for tasks. -/
def taskDesc (a b : Task) : Prop := b.created_at ≤ a.created_at

instance : DecidableRel taskDesc := fun a b => Nat.decLe b.created_at a.created_at

instance : IsTotal Task taskDesc := ⟨fun a b => Nat.le_total b.created_at a.created_at⟩

instance : IsTrans Task taskDesc := ⟨fun _ _ _ h1 h2 => le_trans h2 h1⟩

/-- `ORDER BY created_at DESC` comparison for comments. -/
def commentDesc (a b : Comment) : Prop := b.created_at ≤ a.created_at

instance : DecidableRel commentDesc := fun a b => Nat.decLe b.created_at a.created_at

instance : IsTotal Comment commentDesc := ⟨fun a b => Nat.le_total b.created_at a.created_at⟩

instance : IsTrans Comment commentDesc := ⟨fun _ _ _ h1 h2 => le_trans h2 h1⟩

namespace TaskService

/-- `TaskService.get_task_by_id`: `Task.query.get(task_id)`. -/
def get_task_by_id (st : Store) (task_id : Nat) : Option Task :=
  st.tasks.find? (fun t => t.id == task_id)

/-- `TaskService.create_task`: trims title, coerces falsy description to
`None`, inserts and commits.  `dbFail` models the commit raising
`SQLAlchemyError`, in which case the session is rolled back (no state change)
and the exception re-raised. -/
def create_task (st : Store) (title : String) (description : Option String)
    (dbFail : Bool) : Except SvcErr (Task × Store) :=
  if dbFail then .error .storage
  else
    let t : Task :=
      { id := st.nextTaskId
        title := pyStrip title
        description :=
          match description with
          | some d => if d = "" then none else some (pyStrip d)
          | none => none
        created_at := st.clock
        updated_at := st.clock }
    .ok (t, { st with tasks := st.tasks ++ [t], nextTaskId := st.nextTaskId + 1,
                      clock := st.clock + 1 })

/-- `TaskService.get_all_tasks`: `Task.query.order_by(Task.created_at.desc()).all()`.
`dbFail` models the query raising. -/
def get_all_tasks (st : Store) (dbFail : Bool) : Except SvcErr (List Task) :=
  if dbFail then .error .storage
  else .ok (List.insertionSort taskDesc st.tasks)

/-- The partial-update dictionary accepted by `TaskService.update_task`
(keys `title` and `description`; a present `description` may be null). -/
structure TaskUpdates where
  title : Option String
  description : Option (Option String)
  deriving Repr, DecidableEq

/-- Field application of `TaskService.update_task`: update only provided
fields, trimming; falsy description becomes `None`. -/
def applyTaskUpdates (t : Task) (u : TaskUpdates) (now : Nat) : Task :=
  let t1 := match u.title with
    | some v => { t with title := pyStrip v }
    | none => t
  let t2 := match u.description with
    | some v =>
        { t1 with description :=
            match v with
            | some d => if d = "" then none else some (pyStrip d)
            | none => none }
    | none => t1
  { t2 with updated_at := now }

/-- `TaskService.update_task`: get row, `ValueError` if absent, apply provided
fields, commit (rollback and re-raise on `SQLAlchemyError`). -/
def update_task (st : Store) (task_id : Nat) (u : TaskUpdates) (dbFail : Bool) :
    Except SvcErr (Task × Store) :=
  match st.tasks.find? (fun t => t.id == task_id) with
  | none => .error .notFound
  | some t =>
      if dbFail then .error .storage
      else
        let t3 := applyTaskUpdates t u st.clock
        .ok (t3, { st with
                    tasks := st.tasks.map (fun x => if x.id == task_id then t3 else x),
                    clock := st.clock + 1 })

/-- `TaskService.delete_task`: get row, `ValueError` if absent, delete with
cascade to the task's comments (relationship `cascade='all, delete-orphan'`,
FK `ON DELETE CASCADE`), commit. -/
def delete_task (st : Store) (task_id : Nat) (dbFail : Bool) : Except SvcErr Store :=
  match st.tasks.find? (fun t => t.id == task_id) with
  | none => .error .notFound
  | some _ =>
      if dbFail then .error .storage
      else .ok { st with
                  tasks := st.tasks.filter (fun t => !(t.id == task_id)),
                  comments := st.comments.filter (fun c => !(c.task_id == task_id)) }

end TaskService

namespace CommentService

/-- `CommentService.get_comment_by_id`: `Comment.query.get(comment_id)`. -/
def get_comment_by_id (st : Store) (comment_id : Nat) : Option Comment :=
  st.comments.find? (fun c => c.id == comment_id)

/-- `CommentService.create_comment`: verify the task exists (`ValueError` if
not) before any insert, then trim, insert and commit. -/
def create_comment (st : Store) (task_id : Nat) (content author : String)
    (dbFail : Bool) : Except SvcErr (Comment × Store) :=
  match st.tasks.find? (fun t => t.id == task_id) with
  | none => .error .notFound
  | some _ =>
      if dbFail then .error .storage
      else
        let c : Comment :=
          { id := st.nextCommentId
            task_id := task_id
            content := pyStrip content
            author := pyStrip author
            created_at := st.clock
            updated_at := st.clock }
        .ok (c, { st with comments := st.comments ++ [c],
                          nextCommentId := st.nextCommentId + 1,
                          clock := st.clock + 1 })

/-- `CommentService.get_comments_by_task`: verify the task exists
(`ValueError` if not), then return that task's comments ordered by
`created_at` descending. -/
def get_comments_by_task (st : Store) (task_id : Nat) (dbFail : Bool) :
    Except SvcErr (List Comment) :=
  if dbFail then .error .storage
  else
    match st.tasks.find? (fun t => t.id == task_id) with
    | none => .error .notFound
    | some _ =>
        .ok (List.insertionSort commentDesc
              (st.comments.filter (fun c => c.task_id == task_id)))

/-- The partial-update dictionary passed to `CommentService.update_comment`.
The code reads only the `content` and `author` keys; any other key (such as
`task_id`) is present in the dictionary but never read. -/
structure CommentUpdates where
  content : Option String
  author : Option String
  task_id : Option Nat
  deriving Repr, DecidableEq

/-- Field application of `CommentService.update_comment`: only the `content`
and `author` keys are consulted. -/
def applyCommentUpdates (c : Comment) (u : CommentUpdates) (now : Nat) : Comment :=
  let c1 := match u.content with
    | some v => { c with content := pyStrip v }
    | none => c
  let c2 := match u.author with
    | some v => { c1 with author := pyStrip v }
    | none => c1
  { c2 with updated_at := now }

/-- `CommentService.update_comment`: get row, `ValueError` if absent, apply
provided `content`/`author` fields, commit. -/
def update_comment (st : Store) (comment_id : Nat) (u : CommentUpdates)
    (dbFail : Bool) : Except SvcErr (Comment × Store) :=
  match st.comments.find? (fun c => c.id == comment_id) with
  | none => .error .notFound
  | some c =>
      if dbFail then .error .storage
      else
        let c2 := applyCommentUpdates c u st.clock
        .ok (c2, { st with
                    comments := st.comments.map (fun x => if x.id == comment_id then c2 else x),
                    clock := st.clock + 1 })

/-- `CommentService.delete_comment`: get row, `ValueError` if absent, delete,
commit. -/
def delete_comment (st : Store) (comment_id : Nat) (dbFail : Bool) :
    Except SvcErr Store :=
  match st.comments.find? (fun c => c.id == comment_id) with
  | none => .error .notFound
  | some _ =>
      if dbFail then .error .storage
      else .ok { st with comments := st.comments.filter (fun c => !(c.id == comment_id)) }

/-- `CommentService.get_all_comments`:
`Comment.query.order_by(Comment.created_at.desc()).all()`. -/
def get_all_comments (st : Store) (dbFail : Bool) : Except SvcErr (List Comment) :=
  if dbFail then .error .storage
  else .ok (List.insertionSort commentDesc st.comments)

end CommentService

/-- Marshmallow `validate.Length(min := lo, max := hi)` check. -/
def lengthOk (lo hi : Nat) (s : String) : Bool := lo ≤ s.length && s.length ≤ hi

/-- Failure condition of the schemas' whitespace validators:
`not value or not value.strip()`. -/
def blankCheck (s : String) : Bool := s == "" || pyStrip s == ""

namespace TaskSchema

/-- `POST /api/tasks` request body: `title` required, `description` optional
and nullable (an absent key and a null value are distinguished). -/
structure CreateBody where
  title : Option String
  description : Option (Option String)
  deriving Repr, DecidableEq

/-- `TaskSchema` rules for `title`: length 1..200 and the non-blank check. -/
def titleOk (s : String) : Bool := lengthOk 1 200 s && !(blankCheck s)

/-- `task_schema.load`: title is required and validated; description is
`allow_none` and unvalidated.  `load` raises `ValidationError` (here `none`)
when any field check fails.  The route then reads `data.get('description')`,
which collapses an absent and a null description. -/
def load (b : CreateBody) : Option (String × Option String) :=
  match b.title with
  | none => none
  | some t =>
      if titleOk t then
        some (t, match b.description with | some v => v | none => none)
      else none

end TaskSchema

namespace TaskUpdateSchema

/-- `PUT /api/tasks/{id}` request body: both fields optional. -/
structure Body where
  title : Option String
  description : Option (Option String)
  deriving Repr, DecidableEq

/-- `task_update_schema.load`: a present title must satisfy the same length
and non-blank rules; description is `allow_none` and unvalidated. -/
def load (b : Body) : Option TaskService.TaskUpdates :=
  match b.title with
  | none => some ⟨none, b.description⟩
  | some t => if TaskSchema.titleOk t then some ⟨some t, b.description⟩ else none

end TaskUpdateSchema

namespace CommentSchema

/-- `POST /api/comments` request body. -/
structure CreateBody where
  task_id : Option Nat
  content : Option String
  author : Option String
  deriving Repr, DecidableEq

/-- `CommentSchema` rules for `content`: length 1..2000 and non-blank. -/
def contentOk (s : String) : Bool := lengthOk 1 2000 s && !(blankCheck s)

/-- `CommentSchema` rules for `author`: length 1..100 and non-blank. -/
def authorOk (s : String) : Bool := lengthOk 1 100 s && !(blankCheck s)

/-- `comment_schema.load`: all three fields required; `task_id` has
`Range(min := 1)`; content and author validated for length and blankness. -/
def load (b : CreateBody) : Option (Nat × String × String) :=
  match b.task_id, b.content, b.author with
  | some tid, some ct, some au =>
      if 1 ≤ tid && contentOk ct && authorOk au then some (tid, ct, au) else none
  | _, _, _ => none

end CommentSchema

namespace CommentUpdateSchema

/-- `PUT /api/comments/{id}` request body: both fields optional.  The schema
declares no `task_id` field. -/
structure Body where
  content : Option String
  author : Option String
  deriving Repr, DecidableEq

/-- `comment_update_schema.load`: present fields must satisfy the create
rules; the loaded dictionary never carries a `task_id` key. -/
def load (b : Body) : Option CommentService.CommentUpdates :=
  let cOk := match b.content with | some ct => CommentSchema.contentOk ct | none => true
  let aOk := match b.author with | some au => CommentSchema.authorOk au | none => true
  if cOk && aOk then some ⟨b.content, b.author, none⟩ else none

end CommentUpdateSchema

/-- The observable part of a route handler's JSON response: the HTTP status
code and the `error` field. -/
structure Resp where
  status : Nat
  error : Option String
  deriving Repr, DecidableEq

/-- The `ValueError` message `f"{entity} with id {i} not found"` that the
routes return verbatim in 404 responses. -/
def notFoundMsg (entity : String) (i : Nat) : String :=
  entity ++ " with id " ++ toString i ++ " not found"

namespace task_routes

/-- `POST /api/tasks`: validate (400), create, 201; `SQLAlchemyError` maps to
500 "Database error", anything else to 500 "Internal server error". -/
def create_task (st : Store) (b : TaskSchema.CreateBody) (dbFail : Bool) :
    Resp × Store :=
  match TaskSchema.load b with
  | none => (⟨400, some "Validation error"⟩, st)
  | some (title, description) =>
      match TaskService.create_task st title description dbFail with
      | .ok (_, st') => (⟨201, none⟩, st')
      | .error .storage => (⟨500, some "Database error"⟩, st)
      | .error .notFound => (⟨500, some "Internal server error"⟩, st)

/-- `GET /api/tasks`: this handler guards only with `except Exception`, so a
storage failure surfaces as 500 "Internal server error". -/
def get_all_tasks (st : Store) (dbFail : Bool) : Resp × Store :=
  match TaskService.get_all_tasks st dbFail with
  | .ok _ => (⟨200, none⟩, st)
  | .error _ => (⟨500, some "Internal server error"⟩, st)

/-- `GET /api/tasks/{id}`: explicit null check for 404; only
`except Exception` guards the query. -/
def get_task (st : Store) (task_id : Nat) (dbFail : Bool) : Resp × Store :=
  if dbFail then (⟨500, some "Internal server error"⟩, st)
  else
    match TaskService.get_task_by_id st task_id with
    | none => (⟨404, some (notFoundMsg "Task" task_id)⟩, st)
    | some _ => (⟨200, none⟩, st)

/-- `PUT /api/tasks/{id}`: validate (400), reject an empty update dictionary
(400), update; `ValueError` maps to 404, `SQLAlchemyError` to 500
"Database error". -/
def update_task (st : Store) (task_id : Nat) (b : TaskUpdateSchema.Body)
    (dbFail : Bool) : Resp × Store :=
  match TaskUpdateSchema.load b with
  | none => (⟨400, some "Validation error"⟩, st)
  | some u =>
      if u.title = none ∧ u.description = none then
        (⟨400, some "No valid fields to update"⟩, st)
      else
        match TaskService.update_task st task_id u dbFail with
        | .ok (_, st') => (⟨200, none⟩, st')
        | .error .notFound => (⟨404, some (notFoundMsg "Task" task_id)⟩, st)
        | .error .storage => (⟨500, some "Database error"⟩, st)

/-- `DELETE /api/tasks/{id}`: `ValueError` maps to 404, `SQLAlchemyError` to
500 "Database error". -/
def delete_task (st : Store) (task_id : Nat) (dbFail : Bool) : Resp × Store :=
  match TaskService.delete_task st task_id dbFail with
  | .ok st' => (⟨200, none⟩, st')
  | .error .notFound => (⟨404, some (notFoundMsg "Task" task_id)⟩, st)
  | .error .storage => (⟨500, some "Database error"⟩, st)

end task_routes

namespace comment_routes

/-- `POST /api/comments`: validate (400), create; `ValueError` maps to 404,
`SQLAlchemyError` to 500 "Database error". -/
def create_comment (st : Store) (b : CommentSchema.CreateBody) (dbFail : Bool) :
    Resp × Store :=
  match CommentSchema.load b with
  | none => (⟨400, some "Validation error"⟩, st)
  | some (tid, ct, au) =>
      match CommentService.create_comment st tid ct au dbFail with
      | .ok (_, st') => (⟨201, none⟩, st')
      | .error .notFound => (⟨404, some (notFoundMsg "Task" tid)⟩, st)
      | .error .storage => (⟨500, some "Database error"⟩, st)

/-- `GET /api/comments/task/{task_id}`: handlers are `except ValueError`
(404) and `except Exception` (500 "Internal server error"); there is no
`SQLAlchemyError` branch, so a storage failure is reported as
"Internal server error". -/
def get_comments_by_task (st : Store) (task_id : Nat) (dbFail : Bool) :
    Resp × Store :=
  match CommentService.get_comments_by_task st task_id dbFail with
  | .ok _ => (⟨200, none⟩, st)
  | .error .notFound => (⟨404, some (notFoundMsg "Task" task_id)⟩, st)
  | .error .storage => (⟨500, some "Internal server error"⟩, st)

/-- `GET /api/comments/{id}`: explicit null check for 404; only
`except Exception` guards the query. -/
def get_comment (st : Store) (comment_id : Nat) (dbFail : Bool) : Resp × Store :=
  if dbFail then (⟨500, some "Internal server error"⟩, st)
  else
    match CommentService.get_comment_by_id st comment_id with
    | none => (⟨404, some (notFoundMsg "Comment" comment_id)⟩, st)
    | some _ => (⟨200, none⟩, st)

/-- `PUT /api/comments/{id}`: validate (400), reject an empty update
dictionary (400), update; `ValueError` maps to 404, `SQLAlchemyError` to 500
"Database error". -/
def update_comment (st : Store) (comment_id : Nat) (b : CommentUpdateSchema.Body)
    (dbFail : Bool) : Resp × Store :=
  match CommentUpdateSchema.load b with
  | none => (⟨400, some "Validation error"⟩, st)
  | some u =>
      if u.content = none ∧ u.author = none then
        (⟨400, some "No valid fields to update"⟩, st)
      else
        match CommentService.update_comment st comment_id u dbFail with
        | .ok (_, st') => (⟨200, none⟩, st')
        | .error .notFound => (⟨404, some (notFoundMsg "Comment" comment_id)⟩, st)
        | .error .storage => (⟨500, some "Database error"⟩, st)

/-- `DELETE /api/comments/{id}`: `ValueError` maps to 404, `SQLAlchemyError`
to 500 "Database error". -/
def delete_comment (st : Store) (comment_id : Nat) (dbFail : Bool) :
    Resp × Store :=
  match CommentService.delete_comment st comment_id dbFail with
  | .ok st' => (⟨200, none⟩, st')
  | .error .notFound => (⟨404, some (notFoundMsg "Comment" comment_id)⟩, st)
  | .error .storage => (⟨500, some "Database error"⟩, st)

/-- `GET /api/comments`: this handler guards only with `except Exception`. -/
def get_all_comments (st : Store) (dbFail : Bool) : Resp × Store :=
  match CommentService.get_all_comments st dbFail with
  | .ok _ => (⟨200, none⟩, st)
  | .error _ => (⟨500, some "Internal server error"⟩, st)

end comment_routes

/-- A mutating operation of the service layer, with its `SQLAlchemyError`
outcome flag. -/
inductive Op
  | createTask (title : String) (description : Option String) (dbFail : Bool)
  | createComment (task_id : Nat) (content author : String) (dbFail : Bool)
  | updateTask (task_id : Nat) (u : TaskService.TaskUpdates) (dbFail : Bool)
  | updateComment (comment_id : Nat) (u : CommentService.CommentUpdates) (dbFail : Bool)
  | deleteTask (task_id : Nat) (dbFail : Bool)
  | deleteComment (comment_id : Nat) (dbFail : Bool)

/-- Run one operation; a raised exception leaves the store unchanged
(the service rolls the session back before re-raising). -/
def applyOp (st : Store) : Op → Store
  | .createTask t d f =>
      match TaskService.create_task st t d f with
      | .ok (_, st') => st' | .error _ => st
  | .createComment tid ct au f =>
      match CommentService.create_comment st tid ct au f with
      | .ok (_, st') => st' | .error _ => st
  | .updateTask tid u f =>
      match TaskService.update_task st tid u f with
      | .ok (_, st') => st' | .error _ => st
  | .updateComment cid u f =>
      match CommentService.update_comment st cid u f with
      | .ok (_, st') => st' | .error _ => st
  | .deleteTask tid f =>
      match TaskService.delete_task st tid f with
      | .ok st' => st' | .error _ => st
  | .deleteComment cid f =>
      match CommentService.delete_comment st cid f with
      | .ok st' => st' | .error _ => st

/-- Run a sequence of operations from a starting store. -/
def applyOps (st : Store) (ops : List Op) : Store := ops.foldl applyOp st

/-- Referential integrity: every comment's `task_id` references a stored
task. -/
def RefIntegrity (st : Store) : Prop :=
  ∀ c ∈ st.comments, ∃ t ∈ st.tasks, t.id = c.task_id

/-- A concrete task row used to instantiate theorems. -/
def sampleTask : Task := ⟨1, "t", none, 0, 0⟩

/-- A concrete comment row on `sampleTask`. -/
def sampleComment : Comment := ⟨1, 1, "c", "a", 0, 0⟩

/-- A concrete store holding `sampleTask` and `sampleComment`. -/
def sampleStore : Store := ⟨[sampleTask], [sampleComment], 2, 2, 1⟩

/- ------------------------------------------------------------------ -/
/- Helper lemmas                                                      -/
/- ------------------------------------------------------------------ -/

theorem pyStrip_eq_empty {s : String} (h : s.data.all isPyWs = true) :
    pyStrip s = "" := by
  have h' : s.data.dropWhile isPyWs = [] := by
    rw [List.dropWhile_eq_nil_iff]
    intro x hx
    exact List.all_eq_true.mp h x hx
  simp [pyStrip, h']

theorem blankCheck_of_ws {s : String} (h : s.data.all isPyWs = true) :
    blankCheck s = true := by
  simp [blankCheck, pyStrip_eq_empty h]

theorem titleOk_false_of_ws {s : String} (h : s.data.all isPyWs = true) :
    TaskSchema.titleOk s = false := by
  simp [TaskSchema.titleOk, blankCheck_of_ws h]

theorem contentOk_false_of_ws {s : String} (h : s.data.all isPyWs = true) :
    CommentSchema.contentOk s = false := by
  simp [CommentSchema.contentOk, blankCheck_of_ws h]

theorem authorOk_false_of_ws {s : String} (h : s.data.all isPyWs = true) :
    CommentSchema.authorOk s = false := by
  simp [CommentSchema.authorOk, blankCheck_of_ws h]

theorem find?_map_replace {l : List Comment} {cid : Nat} {c c' : Comment}
    (hf : l.find? (fun x => x.id == cid) = some c) (hid : c'.id = c.id) :
    (l.map (fun x => if x.id == cid then c' else x)).find?
      (fun x => x.id == cid) = some c' := by
  induction l with
  | nil => simp at hf
  | cons x xs ih =>
      rw [List.map_cons]
      by_cases px : (x.id == cid) = true
      · have hx : x = c := by
          have h0 := hf
          simp only [List.find?_cons, px] at h0
          exact Option.some.inj h0
        have pc : ((fun y : Comment => y.id == cid) c') = true := by
          have hcid : c.id = cid := by
            rw [hx] at px
            simpa using px
          simp [hid, hcid]
        rw [if_pos px]
        exact List.find?_cons_of_pos (p := fun y : Comment => y.id == cid) _ pc
      · have hf' : List.find? (fun x => x.id == cid) xs = some c := by
          have h0 := hf
          simp only [List.find?_cons, px] at h0
          exact h0
        rw [if_neg px]
        rw [List.find?_cons_of_neg (p := fun y : Comment => y.id == cid) _ px]
        exact ih hf'

theorem applyCommentUpdates_id (c : Comment) (u : CommentService.CommentUpdates)
    (now : Nat) : (CommentService.applyCommentUpdates c u now).id = c.id := by
  obtain ⟨uc, ua, ut⟩ := u
  cases uc <;> cases ua <;> simp [CommentService.applyCommentUpdates]

theorem applyCommentUpdates_task_id (c : Comment) (u : CommentService.CommentUpdates)
    (now : Nat) : (CommentService.applyCommentUpdates c u now).task_id = c.task_id := by
  obtain ⟨uc, ua, ut⟩ := u
  cases uc <;> cases ua <;> simp [CommentService.applyCommentUpdates]

theorem applyTaskUpdates_id (t : Task) (u : TaskService.TaskUpdates) (now : Nat) :
    (TaskService.applyTaskUpdates t u now).id = t.id := by
  obtain ⟨ut, ud⟩ := u
  cases ut <;> cases ud <;> simp [TaskService.applyTaskUpdates]

theorem update_comment_ok (st : Store) (cid : Nat) (c : Comment)
    (hc : st.comments.find? (fun x => x.id == cid) = some c)
    (u : CommentService.CommentUpdates) :
    CommentService.update_comment st cid u false
      = .ok (CommentService.applyCommentUpdates c u st.clock,
             { st with
               comments := st.comments.map (fun x =>
                 if x.id == cid then CommentService.applyCommentUpdates c u st.clock else x),
               clock := st.clock + 1 }) := by
  simp [CommentService.update_comment, hc]

theorem update_task_ok (st : Store) (tid : Nat) (t : Task)
    (ht : st.tasks.find? (fun x => x.id == tid) = some t)
    (u : TaskService.TaskUpdates) :
    TaskService.update_task st tid u false
      = .ok (TaskService.applyTaskUpdates t u st.clock,
             { st with
               tasks := st.tasks.map (fun x =>
                 if x.id == tid then TaskService.applyTaskUpdates t u st.clock else x),
               clock := st.clock + 1 }) := by
  simp [TaskService.update_task, ht]

theorem create_comment_ok (st : Store) (tid : Nat) (t : Task)
    (ht : st.tasks.find? (fun x => x.id == tid) = some t) (ct au : String) :
    CommentService.create_comment st tid ct au false
      = .ok ({ id := st.nextCommentId, task_id := tid, content := pyStrip ct,
               author := pyStrip au, created_at := st.clock, updated_at := st.clock },
             { st with
               comments := st.comments ++
                 [{ id := st.nextCommentId, task_id := tid, content := pyStrip ct,
                    author := pyStrip au, created_at := st.clock, updated_at := st.clock }],
               nextCommentId := st.nextCommentId + 1,
               clock := st.clock + 1 }) := by
  simp [CommentService.create_comment, ht]

/- ------------------------------------------------------------------ -/
/- Claim theorems                                                     -/
/- ------------------------------------------------------------------ -/

/-- C1: for every task id present in the store, `delete_task` succeeds,
removes the task and every comment whose `task_id` equals that id, and
afterwards `get_comments_by_task` on that id fails with NotFound. -/
theorem delete_task_cascade (st : Store) (tid : Nat) (t : Task)
    (h : TaskService.get_task_by_id st tid = some t) :
    ∃ st', TaskService.delete_task st tid false = .ok st' ∧
      (∀ c ∈ st'.comments, c.task_id ≠ tid) ∧
      TaskService.get_task_by_id st' tid = none ∧
      CommentService.get_comments_by_task st' tid false = .error .notFound := by
  simp only [TaskService.get_task_by_id] at h
  refine ⟨{ st with
      tasks := st.tasks.filter (fun x => !(x.id == tid)),
      comments := st.comments.filter (fun c => !(c.task_id == tid)) }, ?_, ?_, ?_, ?_⟩
  · simp [TaskService.delete_task, h]
  · intro c hc
    simp only [List.mem_filter] at hc
    simpa using hc.2
  · simp only [TaskService.get_task_by_id]
    rw [List.find?_eq_none]
    intro x hx
    simp only [List.mem_filter] at hx
    simpa using hx.2
  · have hn : List.find? (fun t => t.id == tid)
        (st.tasks.filter (fun x => !(x.id == tid))) = none := by
      rw [List.find?_eq_none]
      intro x hx
      simp only [List.mem_filter] at hx
      simpa using hx.2
    simp [CommentService.get_comments_by_task, hn]

theorem delete_task_cascade_witness :
    TaskService.get_task_by_id sampleStore 1 = some sampleTask ∧
    (∃ st', TaskService.delete_task sampleStore 1 false = .ok st' ∧
      (∀ c ∈ st'.comments, c.task_id ≠ 1) ∧
      TaskService.get_task_by_id st' 1 = none ∧
      CommentService.get_comments_by_task st' 1 false = .error .notFound) :=
  ⟨by decide, delete_task_cascade sampleStore 1 sampleTask (by decide)⟩

/-- C2: for every store state and every task id that references no existing
task, `create_comment` fails with NotFound for all content/author values,
before any insert attempt; at the route level the response is 404 and the
store is unchanged. -/
theorem create_comment_missing_task_not_found (st : Store) (tid : Nat)
    (h : TaskService.get_task_by_id st tid = none)
    (content author : String) (dbFail : Bool) :
    CommentService.create_comment st tid content author dbFail = .error .notFound ∧
    (∀ b ct au, CommentSchema.load b = some (tid, ct, au) →
      comment_routes.create_comment st b dbFail
        = (⟨404, some (notFoundMsg "Task" tid)⟩, st)) := by
  simp only [TaskService.get_task_by_id] at h
  constructor
  · simp [CommentService.create_comment, h]
  · intro b ct au hb
    simp [comment_routes.create_comment, hb, CommentService.create_comment, h]

theorem create_comment_missing_task_not_found_witness :
    TaskService.get_task_by_id emptyStore 1 = none ∧
    CommentService.create_comment emptyStore 1 "c" "a" false = .error .notFound :=
  ⟨by decide,
    (create_comment_missing_task_not_found emptyStore 1 (by decide) "c" "a" false).1⟩

/-- C3: partial update changes only the supplied fields: a content-only
comment update leaves author, task_id, id and created_at unchanged; an
author-only update leaves content unchanged; a title-only task update leaves
description unchanged; a description-only task update leaves title
unchanged. -/
theorem partial_update_frame (st : Store) (cid tid : Nat) (c : Comment) (t : Task)
    (hc : CommentService.get_comment_by_id st cid = some c)
    (ht : TaskService.get_task_by_id st tid = some t)
    (s : String) (v : Option String) :
    (∃ c' st', CommentService.update_comment st cid ⟨some s, none, none⟩ false
        = .ok (c', st') ∧
      c'.author = c.author ∧ c'.task_id = c.task_id ∧ c'.id = c.id ∧
      c'.created_at = c.created_at ∧ c'.content = pyStrip s) ∧
    (∃ c' st', CommentService.update_comment st cid ⟨none, some s, none⟩ false
        = .ok (c', st') ∧
      c'.content = c.content ∧ c'.task_id = c.task_id ∧ c'.id = c.id ∧
      c'.created_at = c.created_at ∧ c'.author = pyStrip s) ∧
    (∃ t' st', TaskService.update_task st tid ⟨some s, none⟩ false = .ok (t', st') ∧
      t'.description = t.description ∧ t'.id = t.id ∧ t'.created_at = t.created_at ∧
      t'.title = pyStrip s) ∧
    (∃ t' st', TaskService.update_task st tid ⟨none, some v⟩ false = .ok (t', st') ∧
      t'.title = t.title ∧ t'.id = t.id ∧ t'.created_at = t.created_at) := by
  simp only [CommentService.get_comment_by_id] at hc
  simp only [TaskService.get_task_by_id] at ht
  refine ⟨⟨_, _, update_comment_ok st cid c hc ⟨some s, none, none⟩, ?_, ?_, ?_, ?_, ?_⟩,
    ⟨_, _, update_comment_ok st cid c hc ⟨none, some s, none⟩, ?_, ?_, ?_, ?_, ?_⟩,
    ⟨_, _, update_task_ok st tid t ht ⟨some s, none⟩, ?_, ?_, ?_, ?_⟩,
    ⟨_, _, update_task_ok st tid t ht ⟨none, some v⟩, ?_, ?_, ?_⟩⟩ <;>
    simp [CommentService.applyCommentUpdates, TaskService.applyTaskUpdates]

theorem partial_update_frame_witness :
    (∃ c' st', CommentService.update_comment sampleStore 1 ⟨some "x", none, none⟩ false
        = .ok (c', st') ∧
      c'.author = sampleComment.author ∧ c'.task_id = sampleComment.task_id ∧
      c'.id = sampleComment.id ∧ c'.created_at = sampleComment.created_at ∧
      c'.content = pyStrip "x") ∧
    (∃ c' st', CommentService.update_comment sampleStore 1 ⟨none, some "x", none⟩ false
        = .ok (c', st') ∧
      c'.content = sampleComment.content ∧ c'.task_id = sampleComment.task_id ∧
      c'.id = sampleComment.id ∧ c'.created_at = sampleComment.created_at ∧
      c'.author = pyStrip "x") ∧
    (∃ t' st', TaskService.update_task sampleStore 1 ⟨some "x", none⟩ false
        = .ok (t', st') ∧
      t'.description = sampleTask.description ∧ t'.id = sampleTask.id ∧
      t'.created_at = sampleTask.created_at ∧ t'.title = pyStrip "x") ∧
    (∃ t' st', TaskService.update_task sampleStore 1 ⟨none, some (some "d")⟩ false
        = .ok (t', st') ∧
      t'.title = sampleTask.title ∧ t'.id = sampleTask.id ∧
      t'.created_at = sampleTask.created_at) :=
  partial_update_frame sampleStore 1 1 sampleComment sampleTask
    (by decide) (by decide) "x" (some "d")

/-- C10: a comment's `task_id` is immutable after creation: `update_comment`
reads only the `content` and `author` keys of its updates dictionary, so for
every existing comment and every updates dictionary (even one carrying a
`task_id` entry), the stored comment's `task_id` is unchanged. -/
theorem update_comment_task_id_immutable (st : Store) (cid : Nat) (c : Comment)
    (hc : CommentService.get_comment_by_id st cid = some c)
    (u : CommentService.CommentUpdates) :
    ∃ c' st', CommentService.update_comment st cid u false = .ok (c', st') ∧
      c'.task_id = c.task_id ∧
      CommentService.get_comment_by_id st' cid = some c' := by
  simp only [CommentService.get_comment_by_id] at hc
  refine ⟨_, _, update_comment_ok st cid c hc u,
    applyCommentUpdates_task_id c u st.clock, ?_⟩
  simp only [CommentService.get_comment_by_id]
  simpa using find?_map_replace hc (applyCommentUpdates_id c u st.clock)

theorem update_comment_task_id_immutable_witness :
    CommentService.get_comment_by_id sampleStore 1 = some sampleComment ∧
    (∃ c' st',
      CommentService.update_comment sampleStore 1 ⟨some "x", none, some 99⟩ false
        = .ok (c', st') ∧
      c'.task_id = sampleComment.task_id ∧
      CommentService.get_comment_by_id st' 1 = some c') :=
  ⟨by decide,
    update_comment_task_id_immutable sampleStore 1 sampleComment (by decide)
      ⟨some "x", none, some 99⟩⟩

/-- C4: `get_all_tasks`, `get_all_comments` and `get_comments_by_task` return
all matching rows ordered by `created_at` descending (newest first). -/
theorem list_results_sorted_desc (st : Store) (tid : Nat) :
    (∃ l, TaskService.get_all_tasks st false = .ok l ∧ l.Perm st.tasks ∧
      l.Pairwise (fun a b => b.created_at ≤ a.created_at)) ∧
    (∃ l, CommentService.get_all_comments st false = .ok l ∧ l.Perm st.comments ∧
      l.Pairwise (fun a b => b.created_at ≤ a.created_at)) ∧
    (CommentService.get_comments_by_task st tid false = .error .notFound ∨
      ∃ l, CommentService.get_comments_by_task st tid false = .ok l ∧
        l.Perm (st.comments.filter (fun c => c.task_id == tid)) ∧
        l.Pairwise (fun a b => b.created_at ≤ a.created_at)) := by
  refine ⟨⟨_, rfl, List.perm_insertionSort taskDesc st.tasks,
      List.sorted_insertionSort taskDesc st.tasks⟩,
    ⟨_, rfl, List.perm_insertionSort commentDesc st.comments,
      List.sorted_insertionSort commentDesc st.comments⟩, ?_⟩
  rcases hfind : st.tasks.find? (fun t => t.id == tid) with _ | t
  · left
    simp [CommentService.get_comments_by_task, hfind]
  · right
    refine ⟨_, ?_,
      List.perm_insertionSort commentDesc (st.comments.filter (fun c => c.task_id == tid)),
      List.sorted_insertionSort commentDesc (st.comments.filter (fun c => c.task_id == tid))⟩
    simp [CommentService.get_comments_by_task, hfind]

theorem RefIntegrity_applyOp {st : Store} (op : Op) (h : RefIntegrity st) :
    RefIntegrity (applyOp st op) := by
  cases op with
  | createTask title d f =>
      cases f with
      | true => simpa [applyOp, TaskService.create_task] using h
      | false =>
          simp only [applyOp, TaskService.create_task]
          intro cm hcm
          obtain ⟨t0, ht0, hid⟩ := h cm hcm
          exact ⟨t0, List.mem_append_left _ ht0, hid⟩
  | createComment tid ct au f =>
      rcases hfind : st.tasks.find? (fun t => t.id == tid) with _ | t
      · simpa [applyOp, CommentService.create_comment, hfind] using h
      · cases f with
        | true => simpa [applyOp, CommentService.create_comment, hfind] using h
        | false =>
            simp only [applyOp, CommentService.create_comment, hfind]
            intro cm hcm
            rcases List.mem_append.mp hcm with hl | hr
            · obtain ⟨t0, ht0, hid⟩ := h cm hl
              exact ⟨t0, ht0, hid⟩
            · have hcm' := List.mem_singleton.mp hr
              refine ⟨t, List.mem_of_find?_eq_some hfind, ?_⟩
              rw [hcm']
              simpa using List.find?_some hfind
  | updateTask tid u f =>
      rcases hfind : st.tasks.find? (fun x => x.id == tid) with _ | t
      · simpa [applyOp, TaskService.update_task, hfind] using h
      · cases f with
        | true => simpa [applyOp, TaskService.update_task, hfind] using h
        | false =>
            have heq := update_task_ok st tid t hfind u
            simp only [applyOp, heq]
            intro cm hcm
            obtain ⟨t0, ht0, hid⟩ := h cm hcm
            by_cases ht0id : (t0.id == tid) = true
            · refine ⟨TaskService.applyTaskUpdates t u st.clock, ?_, ?_⟩
              · refine List.mem_map.mpr ⟨t0, ht0, ?_⟩
                simp [ht0id]
              · have h1 : t.id = tid := by
                  simpa using (List.find?_some hfind)
                have h2 : t0.id = tid := by simpa using ht0id
                rw [applyTaskUpdates_id, h1, ← h2, hid]
            · refine ⟨t0, ?_, hid⟩
              refine List.mem_map.mpr ⟨t0, ht0, ?_⟩
              simp [ht0id]
  | updateComment cid u f =>
      rcases hfind : st.comments.find? (fun x => x.id == cid) with _ | c
      · simpa [applyOp, CommentService.update_comment, hfind] using h
      · cases f with
        | true => simpa [applyOp, CommentService.update_comment, hfind] using h
        | false =>
            have heq := update_comment_ok st cid c hfind u
            simp only [applyOp, heq]
            intro cm hcm
            obtain ⟨x, hx, hfx⟩ := List.mem_map.mp hcm
            by_cases hxid : (x.id == cid) = true
            · have hcm' : cm = CommentService.applyCommentUpdates c u st.clock := by
                rw [← hfx, if_pos hxid]
              obtain ⟨t0, ht0, hid⟩ := h c (List.mem_of_find?_eq_some hfind)
              refine ⟨t0, ht0, ?_⟩
              rw [hcm', applyCommentUpdates_task_id]
              exact hid
            · have hcm' : cm = x := by rw [← hfx, if_neg hxid]
              rw [hcm']
              exact h x hx
  | deleteTask tid f =>
      rcases hfind : st.tasks.find? (fun x => x.id == tid) with _ | t
      · simpa [applyOp, TaskService.delete_task, hfind] using h
      · cases f with
        | true => simpa [applyOp, TaskService.delete_task, hfind] using h
        | false =>
            simp only [applyOp, TaskService.delete_task, hfind]
            intro cm hcm
            obtain ⟨hcm', hne⟩ := List.mem_filter.mp hcm
            obtain ⟨t0, ht0, hid⟩ := h cm hcm'
            refine ⟨t0, List.mem_filter.mpr ⟨ht0, ?_⟩, hid⟩
            rw [hid]
            exact hne
  | deleteComment cid f =>
      rcases hfind : st.comments.find? (fun x => x.id == cid) with _ | c
      · simpa [applyOp, CommentService.delete_comment, hfind] using h
      · cases f with
        | true => simpa [applyOp, CommentService.delete_comment, hfind] using h
        | false =>
            simp only [applyOp, CommentService.delete_comment, hfind]
            intro cm hcm
            exact h cm (List.mem_filter.mp hcm).1

theorem RefIntegrity_applyOps (ops : List Op) :
    ∀ st, RefIntegrity st → RefIntegrity (applyOps st ops) := by
  induction ops with
  | nil => exact fun st h => h
  | cons op ops ih => exact fun st h => ih _ (RefIntegrity_applyOp op h)

/-- C6: a string consisting only of whitespace characters is rejected by
every schema — as title, content or author, in create and in update
payloads — with a 400 validation response before the service layer runs
(the store is returned unchanged). -/
theorem whitespace_only_rejected (s : String) (hws : s.data.all isPyWs = true)
    (st : Store) (dbFail : Bool) (d : Option (Option String)) :
    TaskSchema.load ⟨some s, d⟩ = none ∧
    TaskUpdateSchema.load ⟨some s, d⟩ = none ∧
    (∀ tidOpt auOpt, CommentSchema.load ⟨tidOpt, some s, auOpt⟩ = none) ∧
    (∀ tidOpt ctOpt, CommentSchema.load ⟨tidOpt, ctOpt, some s⟩ = none) ∧
    (∀ auOpt, CommentUpdateSchema.load ⟨some s, auOpt⟩ = none) ∧
    (∀ ctOpt, CommentUpdateSchema.load ⟨ctOpt, some s⟩ = none) ∧
    task_routes.create_task st ⟨some s, d⟩ dbFail
      = (⟨400, some "Validation error"⟩, st) ∧
    (∀ tid, task_routes.update_task st tid ⟨some s, d⟩ dbFail
      = (⟨400, some "Validation error"⟩, st)) ∧
    (∀ b : CommentSchema.CreateBody, b.content = some s ∨ b.author = some s →
      comment_routes.create_comment st b dbFail
        = (⟨400, some "Validation error"⟩, st)) ∧
    (∀ cid, ∀ b : CommentUpdateSchema.Body, b.content = some s ∨ b.author = some s →
      comment_routes.update_comment st cid b dbFail
        = (⟨400, some "Validation error"⟩, st)) := by
  have ht := titleOk_false_of_ws hws
  have hc := contentOk_false_of_ws hws
  have ha := authorOk_false_of_ws hws
  refine ⟨?_, ?_, ?_, ?_, ?_, ?_, ?_, ?_, ?_, ?_⟩
  · simp [TaskSchema.load, ht]
  · simp [TaskUpdateSchema.load, ht]
  · intro tidOpt auOpt
    cases tidOpt <;> cases auOpt <;> simp [CommentSchema.load, hc]
  · intro tidOpt ctOpt
    cases tidOpt <;> cases ctOpt <;> simp [CommentSchema.load, ha]
  · intro auOpt
    simp [CommentUpdateSchema.load, hc]
  · intro ctOpt
    cases ctOpt <;> simp [CommentUpdateSchema.load, ha]
  · simp [task_routes.create_task, TaskSchema.load, ht]
  · intro tid
    simp [task_routes.update_task, TaskUpdateSchema.load, ht]
  · rintro ⟨btid, bct, bau⟩ (h1 | h1) <;> simp only at h1 <;> subst h1
    · cases btid <;> cases bau <;>
        simp [comment_routes.create_comment, CommentSchema.load, hc]
    · cases btid <;> cases bct <;>
        simp [comment_routes.create_comment, CommentSchema.load, ha]
  · rintro cid ⟨bct, bau⟩ (h1 | h1) <;> simp only at h1 <;> subst h1
    · simp [comment_routes.update_comment, CommentUpdateSchema.load, hc]
    · cases bct <;>
        simp [comment_routes.update_comment, CommentUpdateSchema.load, ha]

theorem whitespace_only_rejected_witness :
    (" ".data.all isPyWs = true) ∧ TaskSchema.load ⟨some " ", none⟩ = none :=
  ⟨by decide, (whitespace_only_rejected " " (by decide) emptyStore false none).1⟩

/-- C8: referential integrity is an invariant of every operation sequence:
in every store reachable by create/update/delete operations from the empty
store, every comment's `task_id` references an existing task. -/
theorem ref_integrity_invariant (ops : List Op) :
    RefIntegrity (applyOps emptyStore ops) :=
  RefIntegrity_applyOps ops emptyStore (fun c hc => by simp [emptyStore] at hc)

/-- C7 counterexample: a persistence failure during
`GET /api/comments/task/{id}` is reported as 500 "Internal server error",
not as the "database error" message the claim requires for every endpoint
(this route has no `SQLAlchemyError` handler). -/
theorem storage_error_kind_counterexample :
    comment_routes.get_comments_by_task sampleStore 1 true
      = (⟨500, some "Internal server error"⟩, sampleStore) ∧
    (⟨500, some "Internal server error"⟩ : Resp)
      ≠ (⟨500, some "Database error"⟩ : Resp) :=
  ⟨rfl, by decide⟩

/-- C7 amended: on a persistence failure, every mutating endpoint
(POST/PUT/DELETE) leaves the store unchanged (rollback) and responds
500 "Database error"; the read-only GET endpoints also leave the store
unchanged and still surface the failure, but as 500 "Internal server error"
(they have no `SQLAlchemyError` handler); no endpoint swallows the
failure. -/
theorem storage_failure_semantics (st : Store) (tid cid : Nat)
    (bt : TaskSchema.CreateBody) (bu : TaskUpdateSchema.Body)
    (bc : CommentSchema.CreateBody) (bcu : CommentUpdateSchema.Body) :
    (∀ p, TaskSchema.load bt = some p →
      task_routes.create_task st bt true = (⟨500, some "Database error"⟩, st)) ∧
    (∀ u, TaskUpdateSchema.load bu = some u →
      ¬(u.title = none ∧ u.description = none) →
      ∀ t, TaskService.get_task_by_id st tid = some t →
      task_routes.update_task st tid bu true = (⟨500, some "Database error"⟩, st)) ∧
    (∀ t, TaskService.get_task_by_id st tid = some t →
      task_routes.delete_task st tid true = (⟨500, some "Database error"⟩, st)) ∧
    (∀ p : Nat × String × String, CommentSchema.load bc = some p →
      ∀ t, TaskService.get_task_by_id st p.1 = some t →
      comment_routes.create_comment st bc true = (⟨500, some "Database error"⟩, st)) ∧
    (∀ u, CommentUpdateSchema.load bcu = some u →
      ¬(u.content = none ∧ u.author = none) →
      ∀ c, CommentService.get_comment_by_id st cid = some c →
      comment_routes.update_comment st cid bcu true
        = (⟨500, some "Database error"⟩, st)) ∧
    (∀ c, CommentService.get_comment_by_id st cid = some c →
      comment_routes.delete_comment st cid true
        = (⟨500, some "Database error"⟩, st)) ∧
    task_routes.get_all_tasks st true = (⟨500, some "Internal server error"⟩, st) ∧
    comment_routes.get_all_comments st true
      = (⟨500, some "Internal server error"⟩, st) ∧
    comment_routes.get_comments_by_task st tid true
      = (⟨500, some "Internal server error"⟩, st) ∧
    task_routes.get_task st tid true = (⟨500, some "Internal server error"⟩, st) ∧
    comment_routes.get_comment st cid true
      = (⟨500, some "Internal server error"⟩, st) := by
  refine ⟨?_, ?_, ?_, ?_, ?_, ?_, ?_, ?_, ?_, ?_, ?_⟩
  · rintro ⟨pt, pd⟩ hp
    simp [task_routes.create_task, hp, TaskService.create_task]
  · intro u hu hne t htk
    simp only [TaskService.get_task_by_id] at htk
    simp [task_routes.update_task, hu, hne, TaskService.update_task, htk]
  · intro t htk
    simp only [TaskService.get_task_by_id] at htk
    simp [task_routes.delete_task, TaskService.delete_task, htk]
  · rintro ⟨ptid, pct, pau⟩ hp t htk
    simp only [TaskService.get_task_by_id] at htk
    simp [comment_routes.create_comment, hp, CommentService.create_comment, htk]
  · intro u hu hne c hck
    simp only [CommentService.get_comment_by_id] at hck
    simp [comment_routes.update_comment, hu, hne, CommentService.update_comment, hck]
  · intro c hck
    simp only [CommentService.get_comment_by_id] at hck
    simp [comment_routes.delete_comment, CommentService.delete_comment, hck]
  · simp [task_routes.get_all_tasks, TaskService.get_all_tasks]
  · simp [comment_routes.get_all_comments, CommentService.get_all_comments]
  · simp [comment_routes.get_comments_by_task, CommentService.get_comments_by_task]
  · simp [task_routes.get_task]
  · simp [comment_routes.get_comment]

/-- C5 counterexample: creating a task with a present-but-empty description
stores null, so the fetched record's description differs from the trimmed
input `""`. -/
theorem roundtrip_empty_description_counterexample :
    (TaskService.create_task emptyStore "t" (some "") false).toOption.map Prod.fst
      = some ⟨1, "t", none, 0, 0⟩ ∧
    (TaskService.create_task emptyStore "t" (some "") false).toOption.map Prod.snd
      = some ⟨[⟨1, "t", none, 0, 0⟩], [], 2, 1, 1⟩ ∧
    TaskService.get_task_by_id ⟨[⟨1, "t", none, 0, 0⟩], [], 2, 1, 1⟩ 1
      = some ⟨1, "t", none, 0, 0⟩ ∧
    pyStrip "" = "" ∧
    (none : Option String) ≠ some (pyStrip "") :=
  ⟨by decide, by decide, by decide, by decide, by decide⟩

/-- C5 amended: the create/fetch round-trip returns the trimmed inputs with a
server-assigned id and timestamps, except that a present-but-empty
description is stored as null rather than as the trimmed empty string:
title always equals the trimmed input; description equals the trimmed input
when the input description is present and non-empty and is null when it is
absent or empty; a created comment's content/author equal the trimmed inputs
and its task_id the given id. -/
theorem create_roundtrip (st : Store) (hwf : StoreWF st)
    (title content author : String) (d : Option String) :
    (∃ t' st', TaskService.create_task st title d false = .ok (t', st') ∧
      TaskService.get_task_by_id st' t'.id = some t' ∧
      t'.title = pyStrip title ∧
      (∀ s, d = some s → s ≠ "" → t'.description = some (pyStrip s)) ∧
      ((d = none ∨ d = some "") → t'.description = none) ∧
      t'.id = st.nextTaskId ∧ t'.created_at = st.clock ∧ t'.updated_at = st.clock) ∧
    (∀ tid t, TaskService.get_task_by_id st tid = some t →
      ∃ c' st', CommentService.create_comment st tid content author false
          = .ok (c', st') ∧
        CommentService.get_comment_by_id st' c'.id = some c' ∧
        c'.content = pyStrip content ∧ c'.author = pyStrip author ∧
        c'.task_id = tid ∧ c'.id = st.nextCommentId ∧
        c'.created_at = st.clock ∧ c'.updated_at = st.clock) := by
  constructor
  · refine ⟨_, _, rfl, ?_, rfl, ?_, ?_, rfl, rfl, rfl⟩
    · simp only [TaskService.get_task_by_id, List.find?_append]
      have h1 : List.find? (fun x => x.id == st.nextTaskId) st.tasks = none := by
        rw [List.find?_eq_none]
        intro x hx
        have hlt := hwf.1 x hx
        simp only [beq_iff_eq]
        omega
      simp [h1]
    · intro s hd hne
      subst hd
      simp [hne]
    · rintro (hd | hd) <;> subst hd <;> simp
  · intro tid t htk
    simp only [TaskService.get_task_by_id] at htk
    refine ⟨_, _, create_comment_ok st tid t htk content author, ?_, rfl, rfl, rfl,
      rfl, rfl, rfl⟩
    simp only [CommentService.get_comment_by_id, List.find?_append]
    have h1 : List.find? (fun x => x.id == st.nextCommentId) st.comments = none := by
      rw [List.find?_eq_none]
      intro x hx
      have hlt := hwf.2 x hx
      simp only [beq_iff_eq]
      omega
    simp [h1]

theorem create_roundtrip_witness :
    StoreWF sampleStore ∧
    TaskService.get_task_by_id sampleStore 1 = some sampleTask ∧
    (∃ c' st', CommentService.create_comment sampleStore 1 " hi " " Al " false
        = .ok (c', st') ∧
      CommentService.get_comment_by_id st' c'.id = some c' ∧
      c'.content = pyStrip " hi " ∧ c'.author = pyStrip " Al " ∧
      c'.task_id = 1 ∧ c'.id = sampleStore.nextCommentId ∧
      c'.created_at = sampleStore.clock ∧ c'.updated_at = sampleStore.clock) :=
  ⟨by constructor <;> decide,
   by decide,
   (create_roundtrip sampleStore (by constructor <;> decide)
      "x" " hi " " Al " none).2 1 sampleTask (by decide)⟩

/-- C9 counterexample: a whitespace-only (non-empty) description is truthy in
Python, so `create_task` trims it and stores the empty string — the claim
that a client can never make the stored description the empty string is
false. -/
theorem description_empty_counterexample :
    (TaskService.create_task emptyStore "t" (some " ") false).toOption.map Prod.fst
      = some ⟨1, "t", some "", 0, 0⟩ ∧
    (some "" : Option String) ≠ (none : Option String) :=
  ⟨by decide, by decide⟩

/-- C9 amended: `create_task` with an empty or absent description stores
null, and `update_task` with a supplied empty or null description stores
null — a client can always clear the description; however a whitespace-only
non-empty description is trimmed and stored as the empty string, so an
empty-string description is reachable. -/
theorem description_null_coercion (st : Store) (title : String) (tid : Nat)
    (t : Task) (ht : TaskService.get_task_by_id st tid = some t) :
    (∃ t' st', TaskService.create_task st title (some "") false = .ok (t', st') ∧
      t'.description = none) ∧
    (∃ t' st', TaskService.create_task st title none false = .ok (t', st') ∧
      t'.description = none) ∧
    (∃ t' st', TaskService.update_task st tid ⟨none, some (some "")⟩ false
        = .ok (t', st') ∧ t'.description = none) ∧
    (∃ t' st', TaskService.update_task st tid ⟨none, some none⟩ false
        = .ok (t', st') ∧ t'.description = none) := by
  simp only [TaskService.get_task_by_id] at ht
  refine ⟨⟨_, _, rfl, by simp⟩, ⟨_, _, rfl, by simp⟩,
    ⟨_, _, update_task_ok st tid t ht ⟨none, some (some "")⟩, ?_⟩,
    ⟨_, _, update_task_ok st tid t ht ⟨none, some none⟩, ?_⟩⟩ <;>
    simp [TaskService.applyTaskUpdates]

theorem description_null_coercion_witness :
    TaskService.get_task_by_id sampleStore 1 = some sampleTask ∧
    (∃ t' st', TaskService.create_task sampleStore "x" (some "") false
        = .ok (t', st') ∧ t'.description = none) :=
  ⟨by decide,
   (description_null_coercion sampleStore "x" 1 sampleTask (by decide)).1⟩

theorem storage_failure_semantics_witness :
    task_routes.create_task sampleStore ⟨some "t", none⟩ true
      = (⟨500, some "Database error"⟩, sampleStore) ∧
    task_routes.update_task sampleStore 1 ⟨some "t", none⟩ true
      = (⟨500, some "Database error"⟩, sampleStore) ∧
    task_routes.delete_task sampleStore 1 true
      = (⟨500, some "Database error"⟩, sampleStore) ∧
    comment_routes.create_comment sampleStore ⟨some 1, some "c", some "a"⟩ true
      = (⟨500, some "Database error"⟩, sampleStore) ∧
    comment_routes.update_comment sampleStore 1 ⟨some "c", none⟩ true
      = (⟨500, some "Database error"⟩, sampleStore) ∧
    comment_routes.delete_comment sampleStore 1 true
      = (⟨500, some "Database error"⟩, sampleStore) ∧
    task_routes.get_all_tasks sampleStore true
      = (⟨500, some "Internal server error"⟩, sampleStore) := by
  have H := storage_failure_semantics sampleStore 1 1 ⟨some "t", none⟩
    ⟨some "t", none⟩ ⟨some 1, some "c", some "a"⟩ ⟨some "c", none⟩
  exact ⟨H.1 ("t", none) (by decide),
    H.2.1 ⟨some "t", none⟩ (by decide) (by decide) sampleTask (by decide),
    H.2.2.1 sampleTask (by decide),
    H.2.2.2.1 (1, "c", "a") (by decide) sampleTask (by decide),
    H.2.2.2.2.1 ⟨some "c", none, none⟩ (by decide) (by decide) sampleComment (by decide),
    H.2.2.2.2.2.1 sampleComment (by decide),
    H.2.2.2.2.2.2.1⟩

end CrudApi
